import Mathlib

/-!
# Verification of the frozengame mesh-to-GPU-buffer adapter

Shallow embedding of `src/model.rs`: the Mesh Converter
(`From<&tobj::Mesh> for Mesh<Vertex, u32>`), the `ModelBuilder`
(`with_obj_path`, `with_obj`, `build`) and the `Model` record.

Modelling conventions:
* `f32` scalar values are modelled by an arbitrary type `α`: the code only
  moves them around (no floating-point arithmetic is ever performed on them).
* `u32` index values are modelled by `Nat`: they are only cloned, never
  computed with.
* A Rust panic (a failed `assert_eq!` or `.unwrap()`) is modelled by `none`
  in an `Option`-valued function.
* The external collaborators are modelled by their observable data:
  `File::open` by an `Option` of the stream contents, `tobj::load_obj_buf`
  by an `Except ParseError (List (TobjMesh α))` value handed to `with_obj`,
  and `ImmutableBuffer::from_iter` by a buffer record that holds the
  uploaded data, together with an explicit trace of upload events.
-/

namespace FrozenGame

/-- `Vertex` from `model.rs`: `{ position: [f32; 3], normals: [f32; 3] }`. -/
structure Vertex (α : Type) where
  position : α × α × α
  normals : α × α × α
deriving DecidableEq, Repr

/-- `Mesh<VertexDefinition, IndexDefinition>` from `model.rs`. -/
structure Mesh (V I : Type) where
  vertices : List V
  indices : List I
deriving DecidableEq, Repr

/-- The fields of `tobj::Mesh` that the converter reads: flat `positions`
and `normals` arrays and a `u32` index array. -/
structure TobjMesh (α : Type) where
  positions : List α
  normals : List α
  indices : List Nat
deriving DecidableEq, Repr

/-- One iteration of the converter's loop: the six
`.get(i * 3 + _).unwrap()` calls building the `Vertex` pushed at index `i`.
`none` models a panic of one of the `unwrap`s. -/
def mkVertex (m : TobjMesh α) (i : Nat) : Option (Vertex α) :=
  match m.positions.get? (i * 3), m.positions.get? (i * 3 + 1),
        m.positions.get? (i * 3 + 2), m.normals.get? (i * 3),
        m.normals.get? (i * 3 + 1), m.normals.get? (i * 3 + 2) with
  | some p0, some p1, some p2, some n0, some n1, some n2 =>
    some ⟨(p0, p1, p2), (n0, n1, n2)⟩
  | _, _, _, _, _, _ => none

/-- The converter's `for i in 0..n` loop pushing one vertex per iteration
into the `vertices` vec. -/
def buildVertices (m : TobjMesh α) : Nat → Option (List (Vertex α))
  | 0 => some []
  | n + 1 =>
    match buildVertices m n, mkVertex m n with
    | some vs, some v => some (vs ++ [v])
    | _, _ => none

/-- `From<&tobj::Mesh> for Mesh<Vertex, u32>`: assert that `positions` and
`normals` have the same length (`none` models the `assert_eq!` panic), then
emit one vertex per position triplet and clone `indices` unchanged. -/
def fromTobj (m : TobjMesh α) : Option (Mesh (Vertex α) Nat) :=
  if m.positions.length = m.normals.length then
    (buildVertices m (m.positions.length / 3)).map
      fun vs => { vertices := vs, indices := m.indices }
  else
    none

/-- `ModelBuilderError` from `model.rs`, all three declared variants. -/
inductive ModelBuilderError where
  | MissingMeshes
  | MissingVertexShader
  | MissingFragmentShader
deriving DecidableEq, Repr

/-- `tobj::LoadError`, abstract: the parser failed. -/
inductive ParseError where
  | loadError
deriving DecidableEq, Repr

/-- `ModelBuilder<_, VertexType, IndexType, _, _>`: the GPU queue handle,
the optional accumulated meshes, and the pipeline handle. `Q` and `P`
stand for the opaque `Arc<Queue>` and `Arc<GraphicsPipeline<..>>`. -/
structure ModelBuilder (Q P V I : Type) where
  queue : Q
  meshes : Option (List (Mesh V I))
  pipeline : P
deriving DecidableEq, Repr

/-- `Model`: `vertex_buffer` is a vec of buffer handles (the code stores
exactly one), `index_buffer` one handle; a buffer is modelled by the data
uploaded into it. -/
structure Model (P V I : Type) where
  vertex_buffer : List (List V)
  index_buffer : List I
  pipeline : P
deriving DecidableEq, Repr

/-- An `ImmutableBuffer::from_iter` call recorded by `build`. -/
inductive UploadEvent (V I : Type) where
  | vertexUpload (data : List V)
  | indexUpload (data : List I)
deriving DecidableEq, Repr

/-- The outcome of `build`: its return value plus the trace of buffer
uploads it performed. -/
structure BuildResult (P V I : Type) where
  result : Except ModelBuilderError (Model P V I)
  uploads : List (UploadEvent V I)

/-- `ModelBuilder::new(queue, pipeline)`: `meshes = None`. -/
def ModelBuilder.new (q : Q) (p : P) : ModelBuilder Q P V I :=
  { queue := q, meshes := none, pipeline := p }

/-- `ModelBuilder::with_obj`: run the parser on the stream; on success
convert every returned sub-mesh through the converter and store the list
(replacing `meshes` wholesale via struct update `..self`); on parse
failure `.ok()` turns the error into `None`. A `none` result models a
panic inside a mesh conversion. -/
def ModelBuilder.with_obj (b : ModelBuilder Q P (Vertex α) Nat)
    (parsed : Except ParseError (List (TobjMesh α))) :
    Option (ModelBuilder Q P (Vertex α) Nat) :=
  match parsed with
  | .error _ => some { b with meshes := none }
  | .ok objects =>
    (objects.mapM fromTobj).map fun ms => { b with meshes := some ms }

/-- `ModelBuilder::with_obj_path`: `File::open` is modelled by an
`Option` of the stream's parse outcome; `Ok(f)` delegates to `with_obj`,
`Err(_)` returns `self` unchanged. -/
def ModelBuilder.with_obj_path (b : ModelBuilder Q P (Vertex α) Nat)
    (fileOpen : Option (Except ParseError (List (TobjMesh α)))) :
    Option (ModelBuilder Q P (Vertex α) Nat) :=
  match fileOpen with
  | some stream => b.with_obj stream
  | none => some b

/-- `ModelBuilder::build`: fail with `MissingMeshes` when `meshes` is
`None`; otherwise flat-map the meshes' vertices and indices and upload
each flattened list as one immutable buffer, returning the `Model`. -/
def ModelBuilder.build (b : ModelBuilder Q P V I) : BuildResult P V I :=
  match b.meshes with
  | none => { result := .error .MissingMeshes, uploads := [] }
  | some meshes =>
    let vertices := (meshes.map Mesh.vertices).flatten
    let indices := (meshes.map Mesh.indices).flatten
    { result := .ok { vertex_buffer := [vertices],
                      index_buffer := indices,
                      pipeline := b.pipeline },
      uploads := [.vertexUpload vertices, .indexUpload indices] }

/-! Concrete example data used by the spec's worked examples. -/

/-- The spec's example quad: 4 vertices, indices `[0,1,2, 2,3,0]`. -/
def quadMesh : Mesh (Vertex Nat) Nat :=
  { vertices := [⟨(0, 0, 0), (0, 0, 1)⟩, ⟨(1, 0, 0), (0, 0, 1)⟩,
                 ⟨(1, 1, 0), (0, 0, 1)⟩, ⟨(0, 1, 0), (0, 0, 1)⟩],
    indices := [0, 1, 2, 2, 3, 0] }

/-- A builder holding exactly the quad mesh. -/
def quadBuilder : ModelBuilder Unit Unit (Vertex Nat) Nat :=
  { queue := (), meshes := some [quadMesh], pipeline := () }

/-- Source mesh A of the spec's replace-not-append example: 3 vertices,
indices `[0,1,2]`. -/
def tobjA : TobjMesh Nat :=
  { positions := [0, 1, 2, 3, 4, 5, 6, 7, 8],
    normals := [10, 11, 12, 13, 14, 15, 16, 17, 18],
    indices := [0, 1, 2] }

/-- Source mesh B of the spec's replace-not-append example: 2 vertices,
indices `[0,1]`. -/
def tobjB : TobjMesh Nat :=
  { positions := [20, 21, 22, 23, 24, 25],
    normals := [30, 31, 32, 33, 34, 35],
    indices := [0, 1] }

/-- The converted form of `tobjA`. -/
def meshA : Mesh (Vertex Nat) Nat :=
  { vertices := [⟨(0, 1, 2), (10, 11, 12)⟩, ⟨(3, 4, 5), (13, 14, 15)⟩,
                 ⟨(6, 7, 8), (16, 17, 18)⟩],
    indices := [0, 1, 2] }

/-- The converted form of `tobjB`. -/
def meshB : Mesh (Vertex Nat) Nat :=
  { vertices := [⟨(20, 21, 22), (30, 31, 32)⟩, ⟨(23, 24, 25), (33, 34, 35)⟩],
    indices := [0, 1] }

/-! Helper lemmas about the converter's loop. -/

theorem get?_isSome_of_lt {β : Type} (l : List β) (n : Nat) (h : n < l.length) :
    ∃ a, l.get? n = some a := by
  cases hx : l.get? n with
  | none => rw [List.get?_eq_none] at hx; omega
  | some a => exact ⟨a, rfl⟩

theorem mkVertex_isSome {α : Type} {m : TobjMesh α} {i : Nat}
    (hp : i * 3 + 2 < m.positions.length) (hn : i * 3 + 2 < m.normals.length) :
    ∃ v, mkVertex m i = some v := by
  obtain ⟨p0, h0⟩ := get?_isSome_of_lt m.positions (i * 3) (by omega)
  obtain ⟨p1, h1⟩ := get?_isSome_of_lt m.positions (i * 3 + 1) (by omega)
  obtain ⟨p2, h2⟩ := get?_isSome_of_lt m.positions (i * 3 + 2) (by omega)
  obtain ⟨n0, h3⟩ := get?_isSome_of_lt m.normals (i * 3) (by omega)
  obtain ⟨n1, h4⟩ := get?_isSome_of_lt m.normals (i * 3 + 1) (by omega)
  obtain ⟨n2, h5⟩ := get?_isSome_of_lt m.normals (i * 3 + 2) (by omega)
  exact ⟨_, by unfold mkVertex; rw [h0, h1, h2, h3, h4, h5]⟩

theorem mkVertex_components {α : Type} {m : TobjMesh α} {i : Nat} {v : Vertex α}
    (h : mkVertex m i = some v) :
    m.positions.get? (i * 3) = some v.position.1 ∧
    m.positions.get? (i * 3 + 1) = some v.position.2.1 ∧
    m.positions.get? (i * 3 + 2) = some v.position.2.2 ∧
    m.normals.get? (i * 3) = some v.normals.1 ∧
    m.normals.get? (i * 3 + 1) = some v.normals.2.1 ∧
    m.normals.get? (i * 3 + 2) = some v.normals.2.2 := by
  unfold mkVertex at h
  split at h
  · rename_i p0 p1 p2 n0 n1 n2 h0 h1 h2 h3 h4 h5
    injection h with h'
    subst h'
    exact ⟨h0, h1, h2, h3, h4, h5⟩
  · exact absurd h (by simp)

theorem buildVertices_length {α : Type} {m : TobjMesh α} :
    ∀ {n : Nat} {vs : List (Vertex α)}, buildVertices m n = some vs → vs.length = n := by
  intro n
  induction n with
  | zero =>
    intro vs h
    rw [buildVertices] at h
    injection h with h'
    subst h'
    rfl
  | succ n ih =>
    intro vs h
    rw [buildVertices] at h
    split at h
    · rename_i vs' v h1 h2
      injection h with h'
      subst h'
      simp [ih h1]
    · exact absurd h (by simp)

theorem buildVertices_get? {α : Type} {m : TobjMesh α} :
    ∀ {n : Nat} {vs : List (Vertex α)} {k : Nat},
      buildVertices m n = some vs → k < n → vs.get? k = mkVertex m k := by
  intro n
  induction n with
  | zero => intro vs k _ hk; omega
  | succ n ih =>
    intro vs k h hk
    rw [buildVertices] at h
    split at h
    · rename_i vs' v h1 h2
      injection h with h'
      subst h'
      have hlen : vs'.length = n := buildVertices_length h1
      rcases Nat.lt_or_ge k n with hk' | hk'
      · rw [List.get?_append (by omega)]
        exact ih h1 hk'
      · have hkn : k = n := by omega
        have h2' : mkVertex m k = some v := by rw [hkn]; exact h2
        rw [List.get?_append_right (by omega)]
        have hz : k - vs'.length = 0 := by omega
        rw [hz]
        exact h2'.symm
    · exact absurd h (by simp)

theorem buildVertices_isSome {α : Type} {m : TobjMesh α} :
    ∀ {n : Nat}, (∀ i, i < n → ∃ v, mkVertex m i = some v) →
      ∃ vs, buildVertices m n = some vs := by
  intro n
  induction n with
  | zero => intro _; exact ⟨[], rfl⟩
  | succ n ih =>
    intro h
    obtain ⟨vs, hvs⟩ := ih fun i hi => h i (by omega)
    obtain ⟨v, hv⟩ := h n (by omega)
    exact ⟨vs ++ [v], by simp [buildVertices, hvs, hv]⟩

theorem fromTobj_mk_some {α : Type} {m : TobjMesh α}
    (hlen : m.positions.length = m.normals.length) :
    ∃ vs, buildVertices m (m.positions.length / 3) = some vs ∧
      fromTobj m = some { vertices := vs, indices := m.indices } := by
  have hd : m.positions.length / 3 * 3 ≤ m.positions.length :=
    Nat.div_mul_le_self _ 3
  have hsome : ∀ i, i < m.positions.length / 3 → ∃ v, mkVertex m i = some v :=
    fun i hi => mkVertex_isSome (by omega) (by omega)
  obtain ⟨vs, hvs⟩ := buildVertices_isSome hsome
  refine ⟨vs, hvs, ?_⟩
  rw [fromTobj, if_pos hlen, hvs]
  rfl

/-! The claims. -/

/-- C1: for every input mesh whose positions and normals arrays both have
length `3 * n`, the converter succeeds and produces exactly `n` vertices in
input order: vertex `k`'s position components are `positions[3k]`,
`positions[3k+1]`, `positions[3k+2]` and its normal components are
`normals[3k]`, `normals[3k+1]`, `normals[3k+2]`. -/
theorem converter_emits_n_vertices_in_order {α : Type} (m : TobjMesh α) (n : Nat)
    (hp : m.positions.length = 3 * n) (hn : m.normals.length = 3 * n) :
    ∃ out, fromTobj m = some out ∧ out.vertices.length = n ∧
      ∀ k, k < n → ∃ v, out.vertices.get? k = some v ∧
        m.positions.get? (3 * k) = some v.position.1 ∧
        m.positions.get? (3 * k + 1) = some v.position.2.1 ∧
        m.positions.get? (3 * k + 2) = some v.position.2.2 ∧
        m.normals.get? (3 * k) = some v.normals.1 ∧
        m.normals.get? (3 * k + 1) = some v.normals.2.1 ∧
        m.normals.get? (3 * k + 2) = some v.normals.2.2 := by
  have hlen : m.positions.length = m.normals.length := by rw [hp, hn]
  obtain ⟨vs, hvs, hout⟩ := fromTobj_mk_some hlen
  have hdiv : m.positions.length / 3 = n := by rw [hp]; omega
  rw [hdiv] at hvs
  refine ⟨⟨vs, m.indices⟩, hout, buildVertices_length hvs, ?_⟩
  intro k hk
  obtain ⟨v, hv⟩ : ∃ v, mkVertex m k = some v :=
    mkVertex_isSome (by omega) (by omega)
  obtain ⟨c1, c2, c3, c4, c5, c6⟩ := mkVertex_components hv
  have hget : vs.get? k = some v := by rw [buildVertices_get? hvs hk, hv]
  rw [Nat.mul_comm 3 k]
  exact ⟨v, hget, c1, c2, c3, c4, c5, c6⟩

/-- Witness for C1 at the concrete mesh `tobjB` (`n = 2`). -/
theorem converter_emits_n_vertices_in_order_witness :
    ∃ out, fromTobj tobjB = some out ∧ out.vertices.length = 2 ∧
      ∀ k, k < 2 → ∃ v, out.vertices.get? k = some v ∧
        tobjB.positions.get? (3 * k) = some v.position.1 ∧
        tobjB.positions.get? (3 * k + 1) = some v.position.2.1 ∧
        tobjB.positions.get? (3 * k + 2) = some v.position.2.2 ∧
        tobjB.normals.get? (3 * k) = some v.normals.1 ∧
        tobjB.normals.get? (3 * k + 1) = some v.normals.2.1 ∧
        tobjB.normals.get? (3 * k + 2) = some v.normals.2.2 :=
  converter_emits_n_vertices_in_order tobjB 2 (by decide) (by decide)

/-- C2: `build` on a builder holding meshes flattens them, concatenating
all vertex lists in order into the single vertex buffer and all index
lists into the index buffer; in particular the quad example (4 vertices,
indices `[0,1,2,2,3,0]`) yields a 4-vertex buffer and exactly those
indices. -/
theorem build_flattens_meshes {Q P V I : Type} (b : ModelBuilder Q P V I)
    (ms : List (Mesh V I)) (h : b.meshes = some ms) :
    (b.build).result = .ok { vertex_buffer := [(ms.map Mesh.vertices).flatten],
                             index_buffer := (ms.map Mesh.indices).flatten,
                             pipeline := b.pipeline } ∧
    (quadBuilder.build).result = .ok { vertex_buffer := [quadMesh.vertices],
                                       index_buffer := [0, 1, 2, 2, 3, 0],
                                       pipeline := () } ∧
    quadMesh.vertices.length = 4 := by
  refine ⟨?_, rfl, rfl⟩
  rw [ModelBuilder.build.eq_def, h]

/-- Witness for C2 at the concrete quad builder. -/
theorem build_flattens_meshes_witness :
    (quadBuilder.build).result
        = .ok { vertex_buffer := [([quadMesh].map Mesh.vertices).flatten],
                index_buffer := ([quadMesh].map Mesh.indices).flatten,
                pipeline := quadBuilder.pipeline } ∧
    (quadBuilder.build).result = .ok { vertex_buffer := [quadMesh.vertices],
                                       index_buffer := [0, 1, 2, 2, 3, 0],
                                       pipeline := () } ∧
    quadMesh.vertices.length = 4 :=
  build_flattens_meshes quadBuilder [quadMesh] rfl

/-- C3: `build` on a builder whose `meshes` is `None` returns the
`MissingMeshes` error and performs no buffer upload. -/
theorem build_fails_missing_meshes {Q P V I : Type} (b : ModelBuilder Q P V I)
    (h : b.meshes = none) :
    b.build = { result := .error .MissingMeshes, uploads := [] } := by
  rw [ModelBuilder.build.eq_def, h]

/-- Witness for C3 at a freshly constructed builder. -/
theorem build_fails_missing_meshes_witness :
    (ModelBuilder.new () () : ModelBuilder Unit Unit (Vertex Nat) Nat).build
      = { result := .error .MissingMeshes, uploads := [] } :=
  build_fails_missing_meshes (ModelBuilder.new () ()) rfl

/-- C4: the meshes stored by `with_obj` depend only on the parsed stream,
never on the previously held meshes (replace, not append); concretely,
attaching mesh A (3 vertices, indices `[0,1,2]`) then mesh B (2 vertices,
indices `[0,1]`) leaves only B's geometry in the built model. -/
theorem with_obj_replaces_previous_meshes {Q P α : Type} (q : Q) (pl : P)
    (m₁ m₂ : Option (List (Mesh (Vertex α) Nat)))
    (parsed : Except ParseError (List (TobjMesh α))) :
    ((ModelBuilder.mk q m₁ pl).with_obj parsed).map ModelBuilder.meshes
      = ((ModelBuilder.mk q m₂ pl).with_obj parsed).map ModelBuilder.meshes ∧
    ((ModelBuilder.new () () : ModelBuilder Unit Unit (Vertex Nat) Nat).with_obj
        (.ok [tobjA])
      = some { queue := (), meshes := some [meshA], pipeline := () } ∧
     (ModelBuilder.mk () (some [meshA]) ()).with_obj (.ok [tobjB])
      = some { queue := (), meshes := some [meshB], pipeline := () } ∧
     ((ModelBuilder.mk () (some [meshB]) ()).build).result
      = .ok { vertex_buffer := [meshB.vertices], index_buffer := [0, 1],
              pipeline := () } ∧
     meshB.vertices.length = 2) := by
  refine ⟨?_, rfl, rfl, rfl, rfl⟩
  cases parsed with
  | error e => rfl
  | ok objects =>
    cases hm : objects.mapM fromTobj <;>
      simp [ModelBuilder.with_obj, hm]

/-- C5: the converter copies the index array into the output mesh
unchanged whenever it succeeds. -/
theorem converter_copies_indices_unchanged {α : Type} (m : TobjMesh α)
    (out : Mesh (Vertex α) Nat) (h : fromTobj m = some out) :
    out.indices = m.indices := by
  rw [fromTobj] at h
  split at h
  · cases hb : buildVertices m (m.positions.length / 3) with
    | none => rw [hb] at h; exact absurd h (by simp)
    | some vs =>
      rw [hb] at h
      injection h with h'
      rw [← h']
  · exact absurd h (by simp)

/-- Witness for C5 at the concrete mesh `tobjB`. -/
theorem converter_copies_indices_unchanged_witness :
    meshB.indices = tobjB.indices :=
  converter_copies_indices_unchanged tobjB meshB rfl

/-- C6: the converter fails (the length assertion fires) exactly when the
positions and normals arrays differ in length; it never truncates, and
under the precondition of equal lengths the failure branch is
unreachable. -/
theorem converter_asserts_equal_lengths {α : Type} (m : TobjMesh α) :
    fromTobj m = none ↔ m.positions.length ≠ m.normals.length := by
  constructor
  · intro h hlen
    obtain ⟨vs, _, hout⟩ := fromTobj_mk_some hlen
    rw [hout] at h
    exact absurd h (by simp)
  · intro hne
    rw [fromTobj, if_neg hne]

/-- C7: `with_obj_path` on a failed file open returns the builder with
queue, meshes and pipeline all unchanged. -/
theorem with_obj_path_noop_on_open_failure {Q P α : Type}
    (b : ModelBuilder Q P (Vertex α) Nat) :
    ∃ b', b.with_obj_path none = some b' ∧ b'.queue = b.queue ∧
      b'.meshes = b.meshes ∧ b'.pipeline = b.pipeline :=
  ⟨b, rfl, rfl, rfl, rfl⟩

/-- C8: `with_obj` on a parse failure clears `meshes` to `None` (the error
is swallowed; queue and pipeline survive), so a subsequent `build` fails
with `MissingMeshes`. -/
theorem with_obj_parse_failure_clears_meshes {Q P α : Type}
    (b : ModelBuilder Q P (Vertex α) Nat) (e : ParseError) :
    ∃ b', b.with_obj (.error e) = some b' ∧ b'.meshes = none ∧
      b'.queue = b.queue ∧ b'.pipeline = b.pipeline ∧
      (b'.build).result = .error .MissingMeshes :=
  ⟨{ b with meshes := none }, rfl, rfl, rfl, rfl, rfl⟩

/-- C9: `build` returns either a model or the `MissingMeshes` error; the
variants `MissingVertexShader` and `MissingFragmentShader` are never
returned. -/
theorem build_returns_model_or_missing_meshes {Q P V I : Type}
    (b : ModelBuilder Q P V I) :
    (∃ m, (b.build).result = .ok m) ∨
      (b.build).result = .error ModelBuilderError.MissingMeshes := by
  cases hm : b.meshes with
  | none =>
    right
    rw [ModelBuilder.build.eq_def, hm]
  | some ms =>
    left
    exact ⟨_, by rw [ModelBuilder.build.eq_def, hm]⟩

/-- C10: a successful parse yielding zero sub-meshes stores `some []`, and
the subsequent `build` succeeds with buffers built from empty sequences
rather than failing with `MissingMeshes`. -/
theorem with_obj_empty_parse_builds_empty_model {Q P α : Type}
    (b : ModelBuilder Q P (Vertex α) Nat) :
    ∃ b', b.with_obj (.ok []) = some b' ∧ b'.meshes = some [] ∧
      (b'.build).result = .ok { vertex_buffer := [[]], index_buffer := [],
                                pipeline := b.pipeline } :=
  ⟨{ b with meshes := some [] }, rfl, rfl, rfl⟩

end FrozenGame
